import Mathlib

/-!
Shallow embedding of the ISGI feedback wizard (src/App.tsx) for verification.

The embedding models the wizard controller of App.tsx: the step state
machine, the form draft and its localStorage persistence, the completion
counters, the submission pipeline, the QR scan handler and the hub entry
points.  Remote collaborators (storageService, geminiService, emailService)
are opaque in the source and are modelled as oracles returning
success-or-failure (`Except Unit _`), matching the only observable contract
the component uses.

Two modelling notes, both tied to literal source lines:
* The draft-sync effect (App.tsx lines 157-159) re-persists `formData` to
  localStorage after every `setFormData`; the embedding folds that effect
  into each state transition that writes `formData`, so `draft` always
  reflects the stored value between renders.
* In `handleFormSubmit` (App.tsx lines 230-251) the body after validation
  is guarded by the catch handler at lines 248-250 (`catch { setStep(THANKS) }`,
  the try keyword is garbled in the source text but the handler is present):
  any exception thrown after `setStep(SUBMITTING)` - the missing-student
  throw at lines 238-240 included - lands in that handler, which routes to
  the thanks step.  The embedding makes each fallible point explicit and
  routes its failure to `thanks`.
-/

namespace ISGI

/-- The `AppStep` union type of App.tsx line 29. -/
inductive AppStep
  | welcome
  | hub
  | scanner
  | modules
  | form_pedagogy
  | form_env
  | submitting
  | thanks
deriving DecidableEq, Repr

/-- The fixed subject list `GI_SUBJECTS` (App.tsx lines 31-43). -/
def GI_SUBJECTS : List String :=
  ["Algèbre 1",
   "Algorithmique et Programmation C",
   "Analyse 1",
   "Anglais 1",
   "Circuits Électriques",
   "Circuits Électroniques",
   "Environnement Informatique",
   "Français 1",
   "Introduction au Génie Industriel",
   "Mécanique générale",
   "Probabilités et Statistiques"]

/-- A form answer value: the source mixes numeric-scale answers and
enumerated-text answers (`number | string` in FeedbackData). -/
inductive QVal
  | num (n : Int)
  | str (s : String)
deriving DecidableEq, Repr

/-- The `FeedbackData` record (shape fixed by `initialFormData`,
App.tsx lines 142-146, and the db schema columns). -/
structure FeedbackData where
  subject : String
  q1 : Option Int
  q2 : Option Int
  q3 : Option Int
  q4 : Option Int
  q5 : Option Int
  q6_jobs : Option String
  q7_rooms : Option Int
  q8_resources : Option Int
  q9_transport : Option String
  q10_laptop : Option String
  comments : String
deriving DecidableEq, Repr

/-- `initialFormData` (App.tsx lines 142-146). -/
def initialFormData : FeedbackData :=
  { subject := "", q1 := none, q2 := none, q3 := none, q4 := none, q5 := none,
    q6_jobs := none, q7_rooms := none, q8_resources := none,
    q9_transport := none, q10_laptop := none, comments := "" }

/-- The five subject-appropriate fields picked by `progressStats`
(App.tsx lines 198-201): q6..q10 for the environment sentinel, q1..q5
otherwise. -/
def fieldList (fd : FeedbackData) : List (Option QVal) :=
  if fd.subject = "ENVIRONNEMENT_GLOBAL" then
    [fd.q6_jobs.map QVal.str, fd.q7_rooms.map QVal.num,
     fd.q8_resources.map QVal.num, fd.q9_transport.map QVal.str,
     fd.q10_laptop.map QVal.str]
  else
    [fd.q1.map QVal.num, fd.q2.map QVal.num, fd.q3.map QVal.num,
     fd.q4.map QVal.num, fd.q5.map QVal.num]

/-- `progressStats.completed`: `fields.filter(v => v !== null).length`
(App.tsx line 202). -/
def completedCount (fd : FeedbackData) : Nat :=
  ((fieldList fd).filter Option.isSome).length

/-- JavaScript `Math.round` on an exact rational: round half toward
positive infinity. -/
def jsRound (q : ℚ) : ℤ := ⌊q + 1 / 2⌋

/-- `progressStats.percentage`: `Math.round((completed / 5) * 100)`
(App.tsx line 203). -/
def percentage (fd : FeedbackData) : ℤ :=
  jsRound ((completedCount fd : ℚ) / 5 * 100)

/-- The wizard controller state: the `useState` cells of App.tsx
lines 127-155 that the claims touch, plus `draft`, the localStorage
entry under `DRAFT_KEY`. -/
structure AppState where
  step : AppStep
  sidebarOpen : Bool
  showValidationErrors : Bool
  completedSubjects : List String
  envAuditDone : Bool
  lastSubmissionId : String
  studentId : String
  formData : FeedbackData
  draft : Option FeedbackData
deriving DecidableEq, Repr

/-- `getSubjectStatus` (App.tsx lines 206-210). -/
def getSubjectStatus (st : AppState) (name : String) : String :=
  if st.completedSubjects.contains name then "Terminé"
  else if st.formData.subject = name ∧ 0 < completedCount st.formData then "En cours"
  else "À faire"

/-- `startPedagogy` (App.tsx lines 212-219): reset the draft to a blank
record for the subject unless it is already open, then show the pedagogy
form.  The draft-sync effect persists the fresh record. -/
def startPedagogy (st : AppState) (subject : String) : AppState :=
  let st1 :=
    if st.formData.subject ≠ subject then
      let fd := { initialFormData with subject := subject }
      { st with formData := fd, draft := some fd }
    else st
  { st1 with step := AppStep.form_pedagogy, showValidationErrors := false }

/-- `startEnvAudit` (App.tsx lines 221-228). -/
def startEnvAudit (st : AppState) : AppState :=
  let st1 :=
    if st.formData.subject ≠ "ENVIRONNEMENT_GLOBAL" then
      let fd := { initialFormData with subject := "ENVIRONNEMENT_GLOBAL" }
      { st with formData := fd, draft := some fd }
    else st
  { st1 with step := AppStep.form_env, showValidationErrors := false }

/-- The three remote submission collaborators, opaque success-or-failure
oracles (`saveFeedback`, `analyzeFeedback`, `sendAnalysisToAdmin`). -/
structure SubmitEnv where
  saveFeedback : FeedbackData → String → Except Unit String
  analyzeFeedback : FeedbackData → Except Unit String
  sendAnalysisToAdmin : FeedbackData → String → Except Unit Unit

/-- Which remote calls a submission attempt performed, in order. -/
inductive BackendCall
  | save
  | analyze
  | notify
deriving DecidableEq, Repr

/-- `handleFormSubmit` (App.tsx lines 230-251).  Returns the next state
together with the list of backend calls issued.  The validation guard
returns early with the banner set; past validation the step becomes
`submitting`, and every failure point (empty student id throw, save,
analyze, notify) is routed to `thanks` by the catch handler at
lines 248-250.  On full success the draft entry is removed, the form is
reset (and re-persisted by the draft-sync effect), and the step becomes
`thanks`. -/
def handleFormSubmit (env : SubmitEnv) (st : AppState) : AppState × List BackendCall :=
  if completedCount st.formData < 5 then
    ({ st with showValidationErrors := true }, [])
  else
    let s1 : AppState := { st with step := AppStep.submitting }
    if s1.studentId = "" then
      ({ s1 with step := AppStep.thanks }, [])
    else
      match env.saveFeedback s1.formData s1.studentId with
      | Except.error _ => ({ s1 with step := AppStep.thanks }, [BackendCall.save])
      | Except.ok id =>
        let s2 : AppState := { s1 with lastSubmissionId := id }
        match env.analyzeFeedback s2.formData with
        | Except.error _ =>
            ({ s2 with step := AppStep.thanks }, [BackendCall.save, BackendCall.analyze])
        | Except.ok analysis =>
          match env.sendAnalysisToAdmin s2.formData analysis with
          | Except.error _ =>
              ({ s2 with step := AppStep.thanks },
               [BackendCall.save, BackendCall.analyze, BackendCall.notify])
          | Except.ok _ =>
              ({ s2 with draft := some initialFormData,
                         formData := initialFormData,
                         step := AppStep.thanks },
               [BackendCall.save, BackendCall.analyze, BackendCall.notify])

/-- `totalStepsCount = GI_SUBJECTS.length + 1` (App.tsx line 254). -/
def totalStepsCount : Nat := GI_SUBJECTS.length + 1

/-- `currentProgressCount` (App.tsx line 255). -/
def currentProgressCount (st : AppState) : Nat :=
  st.completedSubjects.length + (if st.envAuditDone then 1 else 0)

/-- `globalProgression = Math.round((currentProgressCount / totalStepsCount) * 100)`
(App.tsx line 256). -/
def globalProgression (st : AppState) : ℤ :=
  jsRound ((currentProgressCount st : ℚ) / (totalStepsCount : ℚ) * 100)

/-- `firstUncompleted` (App.tsx line 257). -/
def firstUncompleted (st : AppState) : Option String :=
  GI_SUBJECTS.find? (fun s => !(st.completedSubjects.contains s))

/-- List-of-characters prefix test, auxiliary to substring containment. -/
def startsWithL : List Char → List Char → Bool
  | _, [] => true
  | [], _ :: _ => false
  | a :: as, b :: bs => a == b && startsWithL as bs

/-- Substring containment on character lists: does the first list contain
the second as a contiguous segment. -/
def containsSeg : List Char → List Char → Bool
  | hay, needle =>
    startsWithL hay needle ||
      match hay with
      | [] => false
      | _ :: t => containsSeg t needle

/-- JavaScript `d.includes(x)`: does `d` contain `x` as a substring. -/
def strIncludes (d x : String) : Bool := containsSeg d.toList x.toList

/-- The scanner callback (App.tsx line 263):
`const s = GI_SUBJECTS.find(x => d.includes(x)); if (s) startPedagogy(s);`. -/
def onScanHandler (st : AppState) (d : String) : AppState :=
  match GI_SUBJECTS.find? (fun x => strIncludes d x) with
  | some s => startPedagogy st s
  | none => st

/-- Hub module tile click (App.tsx line 466):
`onClick={() => !isDone && startPedagogy(s)}` where
`isDone` is `getSubjectStatus(s) === Terminé`. -/
def subjectTileClick (st : AppState) (s : String) : AppState :=
  if getSubjectStatus st s = "Terminé" then st else startPedagogy st s

/-- The identity setup effect (App.tsx lines 161-171): on success store
the id, on failure only log (state untouched, student id stays as it was). -/
def setupEffect (r : Except Unit String) (st : AppState) : AppState :=
  match r with
  | Except.ok id => { st with studentId := id }
  | Except.error _ => st

/-- `JSON.parse` of the stored draft with fallback to `initialFormData`
(App.tsx lines 148-155). -/
def loadDraft (storage : Option FeedbackData) : FeedbackData :=
  storage.getD initialFormData

/-- The state right after a fresh mount (simulated reload) with the given
localStorage draft content: all `useState` initialisers of App.tsx
lines 127-155, with `formData` seeded from the stored draft and the
draft-sync effect having re-persisted it. -/
def freshAppState (storage : Option FeedbackData) : AppState :=
  { step := AppStep.welcome, sidebarOpen := false, showValidationErrors := false,
    completedSubjects := [], envAuditDone := false, lastSubmissionId := "",
    studentId := "", formData := loadDraft storage,
    draft := some (loadDraft storage) }

/-- A form field edit (the `QuestionCard onChange` and comments handlers,
App.tsx lines 513-532): update `formData` and re-persist the draft. -/
def editForm (st : AppState) (f : FeedbackData → FeedbackData) : AppState :=
  let fd := f st.formData
  { st with formData := fd, draft := some fd }

/-- The user events that can fire on the rendered screens.  Each
constructor names one concrete handler in App.tsx. -/
inductive UiEvent
  | headerLogo
  | menuOpen
  | sidebarClose
  | welcomeStart
  | hubScanner
  | hubTile (s : String)
  | hubEnv
  | hubNext
  | scannerClose
  | scannerDecode (d : String)
  | formBack
  | formEdit (f : FeedbackData → FeedbackData)
  | formSubmitEv (env : SubmitEnv)
  | thanksReturn

/-- One user event step of the wizard.  Events whose widget is not
rendered at the current step leave the state unchanged; the header (logo
to `welcome`, menu opener) is rendered on every screen (App.tsx
lines 398-406), the sidebar is an overlay that never changes `step`. -/
def dispatch (st : AppState) : UiEvent → AppState
  | UiEvent.headerLogo => { st with step := AppStep.welcome }
  | UiEvent.menuOpen => { st with sidebarOpen := true }
  | UiEvent.sidebarClose => { st with sidebarOpen := false }
  | UiEvent.welcomeStart =>
      if st.step = AppStep.welcome then { st with step := AppStep.hub } else st
  | UiEvent.hubScanner =>
      if st.step = AppStep.hub then { st with step := AppStep.scanner } else st
  | UiEvent.hubTile s =>
      if st.step = AppStep.hub ∧ s ∈ GI_SUBJECTS then subjectTileClick st s else st
  | UiEvent.hubEnv =>
      if st.step = AppStep.hub then startEnvAudit st else st
  | UiEvent.hubNext =>
      if st.step = AppStep.hub then
        match firstUncompleted st with
        | some s => startPedagogy st s
        | none => st
      else st
  | UiEvent.scannerClose =>
      if st.step = AppStep.scanner then { st with step := AppStep.hub } else st
  | UiEvent.scannerDecode d =>
      if st.step = AppStep.scanner then onScanHandler st d else st
  | UiEvent.formBack =>
      if st.step = AppStep.form_pedagogy ∨ st.step = AppStep.form_env then
        { st with step := AppStep.hub }
      else st
  | UiEvent.formEdit f =>
      if st.step = AppStep.form_pedagogy ∨ st.step = AppStep.form_env then
        editForm st f
      else st
  | UiEvent.formSubmitEv env =>
      if st.step = AppStep.form_pedagogy ∨ st.step = AppStep.form_env then
        (handleFormSubmit env st).1
      else st
  | UiEvent.thanksReturn =>
      if st.step = AppStep.thanks then { st with step := AppStep.hub } else st

/-- A fully answered pedagogy form for a concrete subject. -/
def fullPedForm : FeedbackData :=
  { initialFormData with
    subject := "Analyse 1",
    q1 := some 5, q2 := some 4, q3 := some 3, q4 := some 2, q5 := some 1 }

/-- A partially answered pedagogy form (2 of 5 answers set). -/
def partialPedForm : FeedbackData :=
  { initialFormData with subject := "Analyse 1", q1 := some 4, q2 := some 5 }

/-- A concrete wizard state on the pedagogy form with a full draft and an
initialised student id. -/
def baseState : AppState :=
  { step := AppStep.form_pedagogy, sidebarOpen := false,
    showValidationErrors := false, completedSubjects := [],
    envAuditDone := false, lastSubmissionId := "", studentId := "stu-1",
    formData := fullPedForm, draft := some fullPedForm }

/-- A concrete state on the pedagogy form with only 2 of 5 answers. -/
def partialState : AppState :=
  { baseState with formData := partialPedForm, draft := some partialPedForm }

/-- A concrete state whose identity initialization failed: empty student id. -/
def noIdState : AppState := { baseState with studentId := "" }

/-- An environment where every downstream collaborator call fails. -/
def failEnv : SubmitEnv :=
  { saveFeedback := fun _ _ => Except.error (),
    analyzeFeedback := fun _ => Except.error (),
    sendAnalysisToAdmin := fun _ _ => Except.error () }

/-- A concrete hub state whose environment audit is already completed. -/
def hubEnvDoneState : AppState :=
  { step := AppStep.hub, sidebarOpen := false, showValidationErrors := false,
    completedSubjects := [], envAuditDone := true, lastSubmissionId := "",
    studentId := "stu-1", formData := initialFormData,
    draft := some initialFormData }

/-- A concrete hub state with one completed subject. -/
def hubDoneTileState : AppState :=
  { hubEnvDoneState with
    envAuditDone := false, completedSubjects := ["Analyse 1"] }

/-- A concrete hub state with three completed subjects and the environment
audit not done. -/
def hub3State : AppState :=
  { hubEnvDoneState with
    envAuditDone := false,
    completedSubjects := ["Algèbre 1", "Analyse 1", "Anglais 1"] }

/-- A concrete state on the thanks screen. -/
def thanksState : AppState :=
  { step := AppStep.thanks, sidebarOpen := false,
    showValidationErrors := false, completedSubjects := ["Analyse 1"],
    envAuditDone := false, lastSubmissionId := "tok-1", studentId := "stu-1",
    formData := initialFormData, draft := some initialFormData }

/-- A concrete state on the scanner screen. -/
def scannerState : AppState :=
  { step := AppStep.scanner, sidebarOpen := false,
    showValidationErrors := false, completedSubjects := [],
    envAuditDone := false, lastSubmissionId := "", studentId := "stu-1",
    formData := initialFormData, draft := some initialFormData }

/-- The draft state reached by opening Analyse 1 from a fresh app and
answering the first two questions. -/
def scenarioState : AppState :=
  editForm
    (editForm (startPedagogy (freshAppState none) "Analyse 1")
      (fun fd => { fd with q1 := some 4 }))
    (fun fd => { fd with q2 := some 5 })

/-- The five subject-appropriate fields are always exactly five, so the
completed count is at most 5. -/
theorem completedCount_le (fd : FeedbackData) : completedCount fd ≤ 5 := by
  unfold completedCount fieldList
  split
  · simpa using List.length_filter_le _ _
  · simpa using List.length_filter_le _ _

/-- Once validation is passed, every branch of the submission pipeline
(empty-id throw, save failure, analyze failure, notify failure, full
success) ends on the thanks step. -/
theorem submitPastValidation_thanks (env : SubmitEnv) (st : AppState)
    (h : ¬ completedCount st.formData < 5) :
    (handleFormSubmit env st).1.step = AppStep.thanks := by
  unfold handleFormSubmit
  rw [if_neg h]
  dsimp only
  split
  · rfl
  · split
    · rfl
    · split
      · rfl
      · split
        · rfl
        · rfl

/-- startPedagogy always lands on the pedagogy form step. -/
theorem startPedagogy_step (st : AppState) (s : String) :
    (startPedagogy st s).step = AppStep.form_pedagogy := rfl

/-- startPedagogy always leaves the requested subject open. -/
theorem startPedagogy_subject (st : AppState) (s : String) :
    (startPedagogy st s).formData.subject = s := by
  unfold startPedagogy
  dsimp only
  split
  · rfl
  · rename_i h
    exact not_not.mp h

/-- A successful find? splits the list at the first satisfying element:
everything before it fails the predicate. -/
theorem find?_split {α : Type} {p : α → Bool} :
    ∀ {l : List α} {a : α}, l.find? p = some a →
      ∃ pre post, l = pre ++ a :: post ∧ ∀ x ∈ pre, p x = false := by
  intro l
  induction l with
  | nil => intro a h; simp [List.find?] at h
  | cons b t ih =>
    intro a h
    cases hp : p b with
    | true =>
      rw [List.find?_cons_of_pos _ hp] at h
      obtain rfl : b = a := by simpa using h
      exact ⟨[], t, rfl, by simp⟩
    | false =>
      rw [List.find?_cons_of_neg _ (by simp [hp])] at h
      obtain ⟨pre, post, hsplit, hall⟩ := ih h
      refine ⟨b :: pre, post, by rw [hsplit]; rfl, ?_⟩
      intro x hx
      rcases List.mem_cons.mp hx with rfl | hx
      · exact hp
      · exact hall x hx

/-- Evaluation rule for jsRound at a known result value. -/
theorem jsRound_concrete (q : ℚ) (z : ℤ) (h1 : (z : ℚ) ≤ q + 1 / 2)
    (h2 : q + 1 / 2 < z + 1) : jsRound q = z := by
  unfold jsRound
  exact Int.floor_eq_iff.mpr ⟨h1, h2⟩

/-- C1: for every answer set whose 5 subject-appropriate answers are all
non-null (completed count 5), submitting always moves the wizard to the
thanks step, for every behaviour of the downstream collaborators -
including the case where saveFeedback, analyzeFeedback and
sendAnalysisToAdmin all fail. -/
theorem c1_full_submit_reaches_thanks (env : SubmitEnv) (st : AppState)
    (h : completedCount st.formData = 5) :
    (handleFormSubmit env st).1.step = AppStep.thanks :=
  submitPastValidation_thanks env st (by omega)

/-- C1 witness: a concrete full form submitted against an environment
where every downstream call fails still reaches the thanks step. -/
theorem c1_witness :
    completedCount baseState.formData = 5 ∧
    (handleFormSubmit failEnv baseState).1.step = AppStep.thanks :=
  ⟨by decide, c1_full_submit_reaches_thanks failEnv baseState (by decide)⟩

/-- C2: on the form screens, the completion percentage is
round(100 * non-null-count / 5) over the five subject-appropriate fields,
and submission proceeds past validation (reaching the thanks step)
exactly when the non-null count is 5. -/
theorem c2_percentage_and_submit_gate (env : SubmitEnv) (st : AppState)
    (h : st.step = AppStep.form_pedagogy ∨ st.step = AppStep.form_env) :
    percentage st.formData = jsRound (100 * (completedCount st.formData : ℚ) / 5)
    ∧ ((handleFormSubmit env st).1.step = AppStep.thanks ↔
        completedCount st.formData = 5) := by
  constructor
  · unfold percentage
    congr 1
    ring
  · constructor
    · intro hth
      by_contra hne
      have hlt : completedCount st.formData < 5 :=
        lt_of_le_of_ne (completedCount_le _) hne
      have hstep : (handleFormSubmit env st).1.step = st.step := by
        unfold handleFormSubmit
        rw [if_pos hlt]
      rw [hstep] at hth
      rcases h with h | h <;> rw [h] at hth <;> simp at hth
    · intro h5
      exact submitPastValidation_thanks env st (by omega)

/-- C2 witness: the percentage formula and the submit gate evaluated on a
concrete full pedagogy form. -/
theorem c2_witness :
    percentage baseState.formData =
      jsRound (100 * (completedCount baseState.formData : ℚ) / 5)
    ∧ ((handleFormSubmit failEnv baseState).1.step = AppStep.thanks ↔
        completedCount baseState.formData = 5) :=
  c2_percentage_and_submit_gate failEnv baseState (Or.inl rfl)

/-- C3: submitting with fewer than 5 non-null subject-appropriate answers
issues no backend call (saveFeedback in particular is never invoked),
shows the validation banner, and leaves every other component of the
wizard state - step, form data, stored draft - unchanged. -/
theorem c3_incomplete_submit_rejected (env : SubmitEnv) (st : AppState)
    (h : completedCount st.formData < 5) :
    handleFormSubmit env st = ({ st with showValidationErrors := true }, [])
    ∧ (handleFormSubmit env st).1.step = st.step
    ∧ (handleFormSubmit env st).1.formData = st.formData
    ∧ (handleFormSubmit env st).1.draft = st.draft
    ∧ (handleFormSubmit env st).2 = [] := by
  have heq : handleFormSubmit env st = ({ st with showValidationErrors := true }, []) := by
    unfold handleFormSubmit
    rw [if_pos h]
  exact ⟨heq, by rw [heq], by rw [heq], by rw [heq], by rw [heq]⟩

/-- C3 witness: a concrete 2-of-5 form is rejected with the banner and no
backend call. -/
theorem c3_witness :
    handleFormSubmit failEnv partialState =
      ({ partialState with showValidationErrors := true }, [])
    ∧ (handleFormSubmit failEnv partialState).1.step = partialState.step
    ∧ (handleFormSubmit failEnv partialState).1.formData = partialState.formData
    ∧ (handleFormSubmit failEnv partialState).1.draft = partialState.draft
    ∧ (handleFormSubmit failEnv partialState).2 = [] :=
  c3_incomplete_submit_rejected failEnv partialState (by decide)

/-- C4: the displayed global progress is
round(100 * (completed subjects + 1 if environment audit done) / (subject
count + 1)); with 3 completed subjects out of 11 and the environment
audit not done it is 25. -/
theorem c4_global_progression (st : AppState) :
    globalProgression st =
      jsRound (100 * ((st.completedSubjects.length : ℚ) +
          (if st.envAuditDone then 1 else 0)) / ((GI_SUBJECTS.length : ℚ) + 1))
    ∧ globalProgression hub3State = 25 := by
  constructor
  · unfold globalProgression currentProgressCount totalStepsCount
    congr 1
    rw [Nat.cast_add]
    cases he : st.envAuditDone <;> simp [he] <;> ring
  · have hc : (currentProgressCount hub3State : ℚ) = 3 := by
      norm_num [currentProgressCount, hub3State, hubEnvDoneState]
    have ht : (totalStepsCount : ℚ) = 12 := by
      norm_num [totalStepsCount, GI_SUBJECTS]
    unfold globalProgression
    rw [hc, ht]
    apply jsRound_concrete <;> norm_num

/-- C5 counterexample: the environment audit entry point on the hub is
not disabled once the audit is completed - clicking it from a state whose
history already holds the sentinel still transitions into the environment
form and starts a fresh blank record for it. -/
theorem c5_counterexample :
    hubEnvDoneState.envAuditDone = true
    ∧ hubEnvDoneState.step = AppStep.hub
    ∧ (dispatch hubEnvDoneState UiEvent.hubEnv).step = AppStep.form_env
    ∧ (dispatch hubEnvDoneState UiEvent.hubEnv).formData =
        { initialFormData with subject := "ENVIRONNEMENT_GLOBAL" } := by
  decide

/-- C5 amended: a GI subject present in the completed history has an
inert hub tile - clicking it changes nothing, so no transition into its
form occurs; the environment audit button, by contrast, stays active
after completion (see the counterexample). -/
theorem c5_completed_tile_inert (st : AppState) (s : String)
    (_hstep : st.step = AppStep.hub) (hmem : s ∈ st.completedSubjects) :
    dispatch st (UiEvent.hubTile s) = st := by
  show (if st.step = AppStep.hub ∧ s ∈ GI_SUBJECTS then subjectTileClick st s else st) = st
  by_cases hin : st.step = AppStep.hub ∧ s ∈ GI_SUBJECTS
  · rw [if_pos hin]
    unfold subjectTileClick getSubjectStatus
    have hc : st.completedSubjects.contains s = true := List.elem_eq_true_of_mem hmem
    rw [if_pos hc]
    simp
  · rw [if_neg hin]

/-- C5 witness: a completed subject tile click on a concrete hub state is
a no-op. -/
theorem c5_witness :
    dispatch hubDoneTileState (UiEvent.hubTile "Analyse 1") = hubDoneTileState :=
  c5_completed_tile_inert hubDoneTileState "Analyse 1" rfl (by decide)

/-- C6: a draft persisted by the sync effect survives a reload - mounting
a fresh app over the stored draft and reopening the same subject resumes
exactly the stored answers (both for a pedagogy subject and for the
environment audit sentinel). -/
theorem c6_draft_roundtrip (st : AppState) (h : st.draft = some st.formData) :
    (startPedagogy (freshAppState st.draft) st.formData.subject).formData
      = st.formData
    ∧ (st.formData.subject = "ENVIRONNEMENT_GLOBAL" →
        (startEnvAudit (freshAppState st.draft)).formData = st.formData) := by
  have hfd : (freshAppState st.draft).formData = st.formData := by
    rw [h]
    rfl
  constructor
  · unfold startPedagogy
    dsimp only
    rw [if_neg (by rw [hfd]; exact not_not.mpr rfl)]
    exact hfd
  · intro henv
    unfold startEnvAudit
    dsimp only
    rw [if_neg (by rw [hfd]; exact not_not.mpr henv)]
    exact hfd

/-- C6 witness: opening Analyse 1 fresh, answering two questions,
reloading from the persisted draft and reopening Analyse 1 reproduces
exactly those two answers. -/
theorem c6_witness :
    scenarioState.draft = some scenarioState.formData
    ∧ (startPedagogy (freshAppState scenarioState.draft)
        scenarioState.formData.subject).formData = scenarioState.formData
    ∧ scenarioState.formData = partialPedForm :=
  ⟨by decide, (c6_draft_roundtrip scenarioState (by decide)).1, by decide⟩

/-- C7: a decoded payload containing exactly one known subject name as a
substring navigates to that subject's pedagogy form (the step leaves the
scanner for form_pedagogy and the subject is open), while a payload
containing no known subject name leaves the state - and hence the active
scanner - unchanged. -/
theorem c7_scan_navigation (st : AppState) (d : String) :
    (∀ sub : String, sub ∈ GI_SUBJECTS → strIncludes d sub = true →
      (∀ x ∈ GI_SUBJECTS, x ≠ sub → strIncludes d x = false) →
      onScanHandler st d = startPedagogy st sub
      ∧ (onScanHandler st d).step = AppStep.form_pedagogy
      ∧ (onScanHandler st d).formData.subject = sub)
    ∧ ((∀ x ∈ GI_SUBJECTS, strIncludes d x = false) →
        onScanHandler st d = st) := by
  constructor
  · intro sub hmem hp huniq
    have hs : (GI_SUBJECTS.find? (fun x => strIncludes d x)).isSome :=
      List.find?_isSome.mpr ⟨sub, hmem, hp⟩
    obtain ⟨a, ha⟩ := Option.isSome_iff_exists.mp hs
    have hpa : strIncludes d a = true := List.find?_some ha
    have hma : a ∈ GI_SUBJECTS := List.mem_of_find?_eq_some ha
    have heq : a = sub := by
      by_contra hne
      rw [huniq a hma hne] at hpa
      exact Bool.false_ne_true hpa
    subst heq
    have hres : onScanHandler st d = startPedagogy st a := by
      unfold onScanHandler
      rw [ha]
    exact ⟨hres, by rw [hres]; exact startPedagogy_step st a,
      by rw [hres]; exact startPedagogy_subject st a⟩
  · intro hall
    unfold onScanHandler
    rw [List.find?_eq_none.mpr fun x hx => by simp [hall x hx]]

/-- C7 witness: a payload naming exactly Analyse 1 navigates to its
pedagogy form; a payload naming no subject leaves the scanner state
unchanged. -/
theorem c7_witness :
    (onScanHandler scannerState "MODULE: Analyse 1").step = AppStep.form_pedagogy
    ∧ (onScanHandler scannerState "MODULE: Analyse 1").formData.subject = "Analyse 1"
    ∧ onScanHandler scannerState "AUCUN MODULE" = scannerState :=
  ⟨((c7_scan_navigation scannerState "MODULE: Analyse 1").1 "Analyse 1"
      (by decide) (by decide) (by decide)).2.1,
   ((c7_scan_navigation scannerState "MODULE: Analyse 1").1 "Analyse 1"
      (by decide) (by decide) (by decide)).2.2,
   (c7_scan_navigation scannerState "AUCUN MODULE").2 (by decide)⟩

/-- C8 counterexample: the global header logo is rendered on the thanks
screen too, and clicking it moves the wizard from thanks to welcome - a
transition to a state other than hub, so hub is not the only transition
out of thanks. -/
theorem c8_counterexample :
    thanksState.step = AppStep.thanks
    ∧ (dispatch thanksState UiEvent.headerLogo).step = AppStep.welcome
    ∧ (dispatch thanksState UiEvent.headerLogo).step ≠ AppStep.hub
    ∧ (dispatch thanksState UiEvent.headerLogo).step ≠ AppStep.thanks := by
  decide

/-- C8 amended: from the thanks step, the thanks-screen button returns to
hub, and the only other step-changing event is the ever-present header
logo leading to welcome: every event leaves the step in the set
consisting of thanks, hub and welcome. -/
theorem c8_thanks_transitions (st : AppState) (e : UiEvent)
    (h : st.step = AppStep.thanks) :
    ((dispatch st e).step = AppStep.thanks ∨ (dispatch st e).step = AppStep.hub
      ∨ (dispatch st e).step = AppStep.welcome)
    ∧ (dispatch st UiEvent.thanksReturn).step = AppStep.hub := by
  constructor
  · cases e <;> simp [dispatch, h]
  · simp [dispatch, h]

/-- C8 witness: the amended transition bound evaluated on a concrete
thanks state and the header logo event. -/
theorem c8_witness :
    ((dispatch thanksState UiEvent.headerLogo).step = AppStep.thanks
      ∨ (dispatch thanksState UiEvent.headerLogo).step = AppStep.hub
      ∨ (dispatch thanksState UiEvent.headerLogo).step = AppStep.welcome)
    ∧ (dispatch thanksState UiEvent.thanksReturn).step = AppStep.hub :=
  c8_thanks_transitions thanksState UiEvent.headerLogo rfl

/-- C9: a failed identity initialization only logs - the state, hence the
student id, is untouched - and a later submission attempt with a full
form and an empty student id issues no backend call (the feedback row is
never saved), raises no validation banner, and lands on the thanks
screen, so the user is never shown a submission failure. -/
theorem c9_init_failure_silent (st : AppState) (env : SubmitEnv) :
    setupEffect (Except.error ()) st = st
    ∧ (st.studentId = "" → completedCount st.formData = 5 →
        (handleFormSubmit env st).2 = []
        ∧ (handleFormSubmit env st).1.step = AppStep.thanks
        ∧ (handleFormSubmit env st).1.showValidationErrors
            = st.showValidationErrors) := by
  refine ⟨rfl, fun hid h5 => ?_⟩
  have hnl : ¬ completedCount st.formData < 5 := by omega
  have heq : handleFormSubmit env st =
      ({ st with step := AppStep.thanks }, []) := by
    unfold handleFormSubmit
    rw [if_neg hnl]
    dsimp only
    rw [if_pos hid]
  rw [heq]
  exact ⟨rfl, rfl, rfl⟩

/-- C9 witness: a concrete state with an empty student id and a full form
submits to the thanks screen with no backend call and no banner. -/
theorem c9_witness :
    setupEffect (Except.error ()) noIdState = noIdState
    ∧ ((handleFormSubmit failEnv noIdState).2 = []
        ∧ (handleFormSubmit failEnv noIdState).1.step = AppStep.thanks
        ∧ (handleFormSubmit failEnv noIdState).1.showValidationErrors
            = noIdState.showValidationErrors) :=
  ⟨(c9_init_failure_silent noIdState failEnv).1,
   (c9_init_failure_silent noIdState failEnv).2 rfl (by decide)⟩

/-- C10: when a payload contains two or more known subject names, the
scanner navigates to the matching subject that appears earliest in the
GI_SUBJECTS list order: the list splits at the navigated subject and
every subject listed before it fails the substring test. -/
theorem c10_scan_earliest_match (st : AppState) (d : String) (s1 s2 : String)
    (h1 : s1 ∈ GI_SUBJECTS) (_h2 : s2 ∈ GI_SUBJECTS) (_hne : s1 ≠ s2)
    (hp1 : strIncludes d s1 = true) (_hp2 : strIncludes d s2 = true) :
    ∃ sub pre post,
      GI_SUBJECTS = pre ++ sub :: post
      ∧ strIncludes d sub = true
      ∧ (∀ x ∈ pre, strIncludes d x = false)
      ∧ onScanHandler st d = startPedagogy st sub
      ∧ (onScanHandler st d).step = AppStep.form_pedagogy
      ∧ (onScanHandler st d).formData.subject = sub := by
  have hs : (GI_SUBJECTS.find? (fun x => strIncludes d x)).isSome :=
    List.find?_isSome.mpr ⟨s1, h1, hp1⟩
  obtain ⟨a, ha⟩ := Option.isSome_iff_exists.mp hs
  obtain ⟨pre, post, hsplit, hall⟩ := find?_split ha
  have hres : onScanHandler st d = startPedagogy st a := by
    unfold onScanHandler
    rw [ha]
  exact ⟨a, pre, post, hsplit, List.find?_some ha, hall, hres,
    by rw [hres]; exact startPedagogy_step st a,
    by rw [hres]; exact startPedagogy_subject st a⟩

/-- C10 witness: a payload naming Analyse 1 first and Algèbre 1 second
still navigates to Algèbre 1, the match earliest in GI_SUBJECTS order. -/
theorem c10_witness :
    (∃ sub pre post,
      GI_SUBJECTS = pre ++ sub :: post
      ∧ strIncludes "Analyse 1 et Algèbre 1" sub = true
      ∧ (∀ x ∈ pre, strIncludes "Analyse 1 et Algèbre 1" x = false)
      ∧ onScanHandler scannerState "Analyse 1 et Algèbre 1"
          = startPedagogy scannerState sub
      ∧ (onScanHandler scannerState "Analyse 1 et Algèbre 1").step
          = AppStep.form_pedagogy
      ∧ (onScanHandler scannerState "Analyse 1 et Algèbre 1").formData.subject
          = sub)
    ∧ (onScanHandler scannerState "Analyse 1 et Algèbre 1").formData.subject
        = "Algèbre 1" :=
  ⟨c10_scan_earliest_match scannerState "Analyse 1 et Algèbre 1"
      "Algèbre 1" "Analyse 1" (by decide) (by decide) (by decide)
      (by decide) (by decide),
   by decide⟩

end ISGI
